import Mathlib

/-!
Shallow embedding of the spectral-change notebook
(src/spectral-change-detector/spectral-change_ncar.ipynb).

The notebook drives Google Earth Engine: images are remote rasters with
per-pixel values, per-pixel validity masks and a metadata property map.
The embedding models an image as a list of named bands (a band is a pair
of a per-pixel rational value function and a per-pixel Boolean mask)
together with a property map from strings to rational numbers.  Earth
Engine primitives used by the notebook (select, updateMask, divide,
bitwiseAnd, metadata, addBands, calendarRange filters, reducers) are
modelled after their documented semantics; the notebook functions
(maskS2clouds, maskWater, maskS2snow, maskWhite, annual_images,
intrayear, annual_trend, training, kmeans, kmeansresult) are translated
line by line from the source.
-/

set_option maxHeartbeats 1000000

/-- Abstract pixel locations of a raster. -/
abbrev Pix : Type := Nat

/-- One raster band: a per-pixel value and a per-pixel validity mask. -/
@[ext]
structure Band where
  value : Pix → ℚ
  mask : Pix → Bool

/-- The band used when a named band is absent: no valid pixels. -/
def defaultBand : Band := ⟨fun _ => 0, fun _ => false⟩

/-- A remote image: named bands plus a metadata property map. -/
@[ext]
structure EEImage where
  bands : List (String × Band)
  props : String → Option ℚ

namespace EEImage

/-- Look up a band by name. -/
def findBand? (img : EEImage) (n : String) : Option Band :=
  (img.bands.find? (fun nb => nb.1 == n)).map (fun nb => nb.2)

/-- Look up a band by name, defaulting to the fully masked band. -/
def findBandD (img : EEImage) (n : String) : Band :=
  (img.findBand? n).getD defaultBand

/-- Image.select with a single band name: keeps that band and the
image properties. -/
def select (img : EEImage) (n : String) : EEImage :=
  { bands :=
      match img.bands.find? (fun nb => nb.1 == n) with
      | some e => [e]
      | none => []
    props := img.props }

/-- Apply a value transformation to every band.  As for the arithmetic
operations of the remote backend, the result is a fresh image that does
not retain the source properties (which is why the notebook follows
divide with copyProperties). -/
def mapVals (img : EEImage) (f : ℚ → ℚ) : EEImage :=
  { bands := img.bands.map (fun nb => (nb.1, ⟨fun p => f (nb.2.value p), nb.2.mask⟩))
    props := fun _ => none }

/-- Image.divide by a constant. -/
def divide (img : EEImage) (c : ℚ) : EEImage :=
  img.mapVals (fun v => v / c)

/-- Image.bitwiseAnd with a constant bit mask (integer semantics on the
floor of the pixel value). -/
def bitwiseAnd (img : EEImage) (m : Nat) : EEImage :=
  img.mapVals (fun v => ((Int.land v.floor (m : ℤ) : ℤ) : ℚ))

/-- Image.eq with a constant: per-pixel indicator band. -/
def eqConst (img : EEImage) (c : ℚ) : EEImage :=
  img.mapVals (fun v => if v = c then 1 else 0)

/-- Image.lt with a constant: per-pixel indicator band. -/
def ltConst (img : EEImage) (c : ℚ) : EEImage :=
  img.mapVals (fun v => if v < c then 1 else 0)

/-- Image.lte with a constant: per-pixel indicator band. -/
def lteConst (img : EEImage) (c : ℚ) : EEImage :=
  img.mapVals (fun v => if v ≤ c then 1 else 0)

/-- First band of an image, defaulting to the fully masked band. -/
def firstBand (img : EEImage) : Band :=
  (img.bands.head?.map (fun nb => nb.2)).getD defaultBand

/-- Image.and of two single-band images: nonzero where both inputs are
nonzero, valid where both inputs are valid. -/
def andImg (a b : EEImage) : EEImage :=
  { bands := [("and",
      ⟨fun p => if a.firstBand.value p ≠ 0 ∧ b.firstBand.value p ≠ 0 then 1 else 0,
       fun p => a.firstBand.mask p && b.firstBand.mask p⟩)]
    props := fun _ => none }

/-- Mask every band of an image with an extra per-pixel test. -/
def maskAllBands (img : EEImage) (t : Pix → Bool) : EEImage :=
  { bands := img.bands.map (fun nb => (nb.1, ⟨nb.2.value, fun p => nb.2.mask p && t p⟩))
    props := img.props }

/-- Image.updateMask: a pixel of the result is valid when it was valid
before and the first band of the mask image is valid and nonzero there.
Values and properties are kept. -/
def updateMask (img m : EEImage) : EEImage :=
  match m.bands.head? with
  | none => img
  | some mb => img.maskAllBands (fun p => mb.2.mask p && decide (mb.2.value p ≠ 0))

/-- Element.copyProperties: copy the listed properties from the source
element onto the image, keeping the remaining destination properties. -/
def copyProperties (img src : EEImage) (keys : List String) : EEImage :=
  { img with props := fun s =>
      if s ∈ keys then
        match src.props s with
        | some v => some v
        | none => img.props s
      else img.props s }

/-- Image.metadata: a single constant band holding the named numeric
property, masked everywhere when the property is absent. -/
def metadata (img : EEImage) (n : String) : EEImage :=
  { bands := [(n, ⟨fun _ => ((img.props n).getD 0), fun _ => (img.props n).isSome⟩)]
    props := fun _ => none }

/-- Image.addBands: append the bands of the other image, keeping the
base image properties. -/
def addBands (img other : EEImage) : EEImage :=
  { bands := img.bands ++ other.bands
    props := img.props }

/-- Element.set: add or overwrite one numeric property. -/
def set (img : EEImage) (k : String) (v : ℚ) : EEImage :=
  { img with props := fun s => if s = k then some v else img.props s }

/-- An image is fully masked when no band has any valid pixel. -/
def fullyMasked (img : EEImage) : Prop :=
  ∀ nb ∈ img.bands, ∀ p, nb.2.mask p = false

end EEImage

/-!  Calendar arithmetic backing ee.Filter.calendarRange.  Timestamps
are milliseconds since the Unix epoch (the system:time_start property);
the civil date is recovered with the standard days-to-civil algorithm. -/

/-- Days since the Unix epoch of a millisecond timestamp (floor). -/
def tsDays (ts : ℚ) : ℤ :=
  ts.num.fdiv ((ts.den : ℤ) * 86400000)

/-- Proleptic Gregorian (year, month, day) of a day count since the
Unix epoch. -/
def civilFromDays (z0 : ℤ) : ℤ × ℤ × ℤ :=
  let z := z0 + 719468
  let era := z.fdiv 146097
  let doe := z - era * 146097
  let yoe := (doe - doe / 1460 + doe / 36524 - doe / 146096) / 365
  let y := yoe + era * 400
  let doy := doe - (365 * yoe + yoe / 4 - yoe / 100)
  let mp := (5 * doy + 2) / 153
  let d := doy - (153 * mp + 2) / 5 + 1
  let m := mp + (if mp < 10 then 3 else -9)
  (y + (if m ≤ 2 then 1 else 0), m, d)

/-- Calendar field (year or month) of a millisecond timestamp. -/
def calendarField (field : String) (ts : ℚ) : ℤ :=
  let c := civilFromDays (tsDays ts)
  if field = "year" then c.1 else c.2.1

/-- ee.Filter.calendarRange as a predicate on images: tests the chosen
calendar field of system:time_start against an inclusive range, with the
wrap-around semantics of the backend when the range is inverted.  An
image without a timestamp passes no calendar filter. -/
def calendarRange (lo hi : ℤ) (field : String) (img : EEImage) : Bool :=
  match img.props "system:time_start" with
  | none => false
  | some ts =>
    let v := calendarField field ts
    if lo ≤ hi then decide (lo ≤ v ∧ v ≤ hi) else decide (lo ≤ v ∨ v ≤ hi)

/-- The ambient notebook state read by the analysis cells: region of
interest, water mask, chosen index, the index-bearing image collection,
the analysis mode and the year/month window. -/
structure Env where
  aoi : Pix → Bool
  waterMask : EEImage
  index : String
  index_collection : List EEImage
  analysis : String
  start_year : ℤ
  end_year : ℤ
  start_month : ℤ
  end_month : ℤ

/-!  The masking pipeline, translated from the notebook. -/

/-- Mask cloud and cirrus pixels from Sentinel-2 imagery using the QA60
band, then rescale by 1/10000, copying the capture timestamp from the
input. -/
def maskS2clouds (image : EEImage) : EEImage :=
  let qa := image.select "QA60"
  let cloudBitMask : Nat := 1 <<< 10
  let cirrusBitMask : Nat := 1 <<< 11
  let mask := ((qa.bitwiseAnd cloudBitMask).eqConst 0).andImg
      ((qa.bitwiseAnd cirrusBitMask).eqConst 0)
  ((image.updateMask mask).divide 10000).copyProperties image ["system:time_start"]

/-- Mask out water using the ambient MODIS water mask. -/
def maskWater (env : Env) (image : EEImage) : EEImage :=
  image.updateMask ((env.waterMask.select "water_mask").ltConst 1)

/-- Mask snow using the MSK_SNWPRB snow-probability band. -/
def maskS2snow (image : EEImage) : EEImage :=
  let mask := (image.select "MSK_SNWPRB").ltConst (9 / 1000)
  (image.updateMask mask).copyProperties image ["system:time_start"]

/-- Grayscale expression (.3 * 1e4 * R) + (.59 * 1e4 * G) + (.11 * 1e4 * B)
over the B4, B3, B2 bands; valid where all three inputs are valid. -/
def grayscaleExpr (image : EEImage) : EEImage :=
  let r := image.findBandD "B4"
  let g := image.findBandD "B3"
  let b := image.findBandD "B2"
  { bands := [("constant",
      ⟨fun p => (3/10) * 10000 * r.value p + (59/100) * 10000 * g.value p
          + (11/100) * 10000 * b.value p,
       fun p => r.mask p && g.mask p && b.mask p⟩)]
    props := fun _ => none }

/-- Mask white pixels: remove pixels whose grayscale value exceeds 2000,
copying the capture timestamp from the input. -/
def maskWhite (image : EEImage) : EEImage :=
  let grayscale := grayscaleExpr image
  let white_mask := grayscale.lteConst 2000
  (image.updateMask white_mask).copyProperties image ["system:time_start"]

/-!  Reducers, modelled after the documented backend semantics: a
reducer aggregates, per pixel and per input band, the values of the
images at which that pixel is valid; a pixel with no contributing value
is masked in the output, and reducing an empty collection yields an
image with no bands. -/

/-- Valid values contributed by the named band at one pixel across a
collection. -/
def collectValues (imgs : List EEImage) (n : String) (p : Pix) : List ℚ :=
  imgs.filterMap (fun im =>
    (im.findBand? n).bind (fun b => if b.mask p then some (b.value p) else none))

/-- Arithmetic mean of a list of rationals (0 on the empty list, which
is always masked away). -/
def meanQ (l : List ℚ) : ℚ := l.sum / l.length

/-- Population variance of a list of rationals.  The backend stdDev
reducer reports the square root of this quantity; the square root of a
rational is in general irrational, and no verified property below
inspects the stdDev band value, so the embedding stores the variance. -/
def varianceQ (l : List ℚ) : ℚ :=
  (l.map (fun v => (v - meanQ l) ^ 2)).sum / l.length

/-- Minimum of a list of rationals (0 on the empty list). -/
def minQ (l : List ℚ) : ℚ :=
  match l with
  | [] => 0
  | x :: xs => xs.foldl min x

/-- Maximum of a list of rationals (0 on the empty list). -/
def maxQ (l : List ℚ) : ℚ :=
  match l with
  | [] => 0
  | x :: xs => xs.foldl max x

/-- Insert into a sorted list of rationals. -/
def insertOrd (x : ℚ) : List ℚ → List ℚ
  | [] => [x]
  | y :: ys => if x ≤ y then x :: y :: ys else y :: insertOrd x ys

/-- Insertion sort of a list of rationals. -/
def sortQ (l : List ℚ) : List ℚ := l.foldr insertOrd []

/-- Median of a list of rationals: middle element for odd length, mean
of the two middle elements for even length. -/
def medianQ (l : List ℚ) : ℚ :=
  let s := sortQ l
  let n := s.length
  if n % 2 = 1 then s.getD (n / 2) 0
  else (s.getD (n / 2 - 1) 0 + s.getD (n / 2) 0) / 2

/-- The three combined reducers the notebook builds from the analysis
mode: mean with stdDev, mean with minMax, mean with median. -/
inductive CombinedReducer where
  | meanStdDev : CombinedReducer
  | meanMinMax : CombinedReducer
  | meanMedian : CombinedReducer

/-- Output bands of one combined reducer for one input band name. -/
def statBands (r : CombinedReducer) (imgs : List EEImage) (n : String) :
    List (String × Band) :=
  let vals := fun p => collectValues imgs n p
  let statBand : (List ℚ → ℚ) → Band := fun st =>
    ⟨fun p => st (vals p), fun p => !(vals p).isEmpty⟩
  match r with
  | CombinedReducer.meanStdDev =>
    [(n ++ "_mean", statBand meanQ), (n ++ "_stdDev", statBand varianceQ)]
  | CombinedReducer.meanMinMax =>
    [(n ++ "_mean", statBand meanQ), (n ++ "_min", statBand minQ),
     (n ++ "_max", statBand maxQ)]
  | CombinedReducer.meanMedian =>
    [(n ++ "_mean", statBand meanQ), (n ++ "_median", statBand medianQ)]

/-- ImageCollection.reduce with a combined reducer: one output image
whose bands are the per-band statistics, named with the reducer
suffixes; reducing an empty collection yields an image with no bands. -/
def reduceCombined (r : CombinedReducer) (imgs : List EEImage) : EEImage :=
  match imgs with
  | [] => { bands := [], props := fun _ => none }
  | i0 :: _ =>
    { bands := i0.bands.flatMap (fun nb => statBands r imgs nb.1)
      props := fun _ => none }

/-- Per-pixel (x, y) samples for ee.Reducer.linearFit: the first band of
each image is the independent input and the second the dependent input,
contributing where both are valid. -/
def linearPairs (imgs : List EEImage) (p : Pix) : List (ℚ × ℚ) :=
  imgs.filterMap (fun im =>
    match im.bands with
    | bx :: b2 :: _ =>
      if bx.2.mask p && b2.2.mask p then some (bx.2.value p, b2.2.value p) else none
    | _ => none)

/-- Ordinary-least-squares slope of a list of points, when the design is
nondegenerate. -/
def fitScale (pts : List (ℚ × ℚ)) : Option ℚ :=
  let n : ℚ := pts.length
  let sx := (pts.map (fun q => q.1)).sum
  let sy := (pts.map (fun q => q.2)).sum
  let sxx := (pts.map (fun q => q.1 * q.1)).sum
  let sxy := (pts.map (fun q => q.1 * q.2)).sum
  let den := n * sxx - sx * sx
  if den = 0 then none else some ((n * sxy - sx * sy) / den)

/-- Ordinary-least-squares intercept of a list of points, when the
design is nondegenerate. -/
def fitOffset (pts : List (ℚ × ℚ)) : Option ℚ :=
  (fitScale pts).map (fun sc =>
    ((pts.map (fun q => q.2)).sum - sc * (pts.map (fun q => q.1)).sum) / pts.length)

/-- ImageCollection.reduce with ee.Reducer.linearFit: scale and offset
bands, masked where the fit is degenerate; reducing an empty collection
yields an image with no bands. -/
def reduceLinearFit (imgs : List EEImage) : EEImage :=
  match imgs with
  | [] => { bands := [], props := fun _ => none }
  | _ =>
    { bands :=
        [("scale", ⟨fun p => (fitScale (linearPairs imgs p)).getD 0,
                    fun p => (fitScale (linearPairs imgs p)).isSome⟩),
         ("offset", ⟨fun p => (fitOffset (linearPairs imgs p)).getD 0,
                     fun p => (fitOffset (linearPairs imgs p)).isSome⟩)]
      props := fun _ => none }

/-!  The aggregator and trend functions, translated from the notebook.
Each first filters the index collection by a calendar year range and the
ambient month window, then maps over the result to add a time band,
dividing system:time_start by the fixed constant 3.154e10 written
31540000000 below. -/

/-- Year/month filtered dataset of annual_images, with the added
normalized time band. -/
def annualImagesDataset (env : Env) (y : ℤ) : List EEImage :=
  ((env.index_collection.filter (calendarRange y y "year")).filter
      (calendarRange env.start_month env.end_month "month")).map
    (fun image => image.addBands ((image.metadata "system:time_start").divide 31540000000))

/-- The reducer the notebook assigns for each analysis mode; no
assignment happens for any other mode. -/
def reducerFor (analysis : String) : Option CombinedReducer :=
  if analysis = "mean" then some CombinedReducer.meanStdDev
  else if analysis = "min" ∨ analysis = "max" then some CombinedReducer.meanMinMax
  else if analysis = "median" then some CombinedReducer.meanMedian
  else none

/-- The Python error raised when annual_images reaches
filtered_dataset.reduce(reducer) with no reducer assigned. -/
inductive PyError where
  | unboundLocalReducer : PyError

/-- annual_images: filter the ambient index collection for one year and
the ambient month window, choose the combined reducer from the ambient
analysis mode, reduce, and tag the result with the year and the image
count.  An analysis mode outside mean/min/max/median leaves the reducer
unassigned and the call fails. -/
def annual_images (env : Env) (y : ℤ) : Except PyError EEImage :=
  let filtered_dataset := annualImagesDataset env y
  let num_images : ℚ := (filtered_dataset.length : ℚ)
  match reducerFor env.analysis with
  | none => Except.error PyError.unboundLocalReducer
  | some r =>
    Except.ok (((reduceCombined r filtered_dataset).set "year" (y : ℚ)).set
      "num" num_images)

/-- An image collection with its own property map (intrayear returns a
collection tagged with year and count). -/
@[ext]
structure EECollection where
  images : List EEImage
  props : String → Option ℚ

/-- Collection-level Element.set. -/
def EECollection.set (c : EECollection) (k : String) (v : ℚ) : EECollection :=
  { c with props := fun s => if s = k then some v else c.props s }

/-- Year/month filtered dataset of intrayear, with the added normalized
time band. -/
def intrayearDataset (env : Env) (index_collection : List EEImage) : List EEImage :=
  ((index_collection.filter (calendarRange env.start_year env.end_year "year")).filter
      (calendarRange env.start_month env.end_month "month")).map
    (fun image => image.addBands ((image.metadata "system:time_start").divide 31540000000))

/-- intrayear: filter the given collection by the ambient year and month
window and tag it with the start year and the image count. -/
def intrayear (env : Env) (index_collection : List EEImage) : EECollection :=
  let filtered_dataset := intrayearDataset env index_collection
  let num_images : ℚ := (filtered_dataset.length : ℚ)
  ((EECollection.mk filtered_dataset (fun _ => none)).set "year"
      (env.start_year : ℚ)).set "num" num_images

/-- Year/month filtered dataset of annual_trend, with the added
normalized time band. -/
def annualTrendDataset (env : Env) (y : ℤ) : List EEImage :=
  ((env.index_collection.filter (calendarRange y y "year")).filter
      (calendarRange env.start_month env.end_month "month")).map
    (fun image => image.addBands ((image.metadata "system:time_start").divide 31540000000))

/-- annual_trend: filter the ambient index collection for one year and
the ambient month window, reduce with the linear-fit reducer, and tag
the result with the year and the image count. -/
def annual_trend (env : Env) (y : ℤ) : EEImage :=
  let filtered_dataset := annualTrendDataset env y
  let num_images : ℚ := (filtered_dataset.length : ℚ)
  ((reduceLinearFit filtered_dataset).set "year" (y : ℚ)).set "num" num_images

/-!  The clustering stage. -/

/-- Modelled from the spec: Image.sample is a primitive of the external
service, absent from the repository.  Following the contract of the
sampling/export stage, it draws a bounded random sample of valid pixels
inside the region; randomness is replaced by a deterministic scan of an
arbitrary candidate pool, since only the size bound numPixels matters to
the verified properties, and regions with fewer qualifying pixels return
fewer rows. -/
def EEImage.sample (img : EEImage) (region : Pix → Bool) (numPixels : Nat) :
    List (List ℚ) :=
  (((List.range (4 * numPixels)).filter
      (fun p => region p && img.bands.all (fun nb => nb.2.mask p))).map
    (fun p => img.bands.map (fun nb => nb.2.value p))).take numPixels

/-- Modelled from the spec: ee.Clusterer.wekaKMeans(k).train is a
primitive of the external service, absent from the repository.
Following the contract of the clustering stage, training fits exactly k
centroids once on the sample; the centroid positions are arbitrary small
representatives, since only their number matters to the verified
properties. -/
def wekaKMeansTrain (k : Nat) (trainingData : List (List ℚ)) : List (List ℚ) :=
  let c := trainingData.take k
  c ++ List.replicate (k - c.length) [0]

/-- Squared euclidean distance of two feature vectors. -/
def dist2 (a b : List ℚ) : ℚ :=
  ((a.zip b).map (fun q => (q.1 - q.2) ^ 2)).sum

/-- Index of the least element, scanning left to right. -/
def argminAux : List ℚ → Nat → Nat → ℚ → Nat
  | [], _, bi, _ => bi
  | v :: vs, i, bi, bv =>
    if v < bv then argminAux vs (i + 1) i v else argminAux vs (i + 1) bi bv

/-- Index of the least element of a list (0 on the empty list). -/
def argminIdx : List ℚ → Nat
  | [] => 0
  | v :: vs => argminAux vs 1 0 v

/-- Modelled from the spec: Image.cluster applies the trained clusterer
to every pixel, assigning each the label of its nearest centroid in a
single cluster band. -/
def clusterWith (img : EEImage) (centroids : List (List ℚ)) : EEImage :=
  { bands := [("cluster",
      ⟨fun p =>
          ((argminIdx (centroids.map
            (fun c => dist2 c (img.bands.map (fun nb => nb.2.value p))))) : ℚ),
       fun p => img.bands.all (fun nb => nb.2.mask p)⟩)]
    props := fun _ => none }

/-- The notebook training cell: sample at most 5000 pixels of the trend
image inside the region of interest. -/
def training (img : EEImage) (aoi : Pix → Bool) : List (List ℚ) :=
  img.sample aoi 5000

/-- The notebook kmeans cell: train a 4-cluster wekaKMeans clusterer on
the sample. -/
def kmeans (img : EEImage) (aoi : Pix → Bool) : List (List ℚ) :=
  wekaKMeansTrain 4 (training img aoi)

/-- The notebook kmeansresult cell: apply the trained clusterer to the
full raster. -/
def kmeansresult (img : EEImage) (aoi : Pix → Bool) : EEImage :=
  clusterWith img (kmeans img aoi)

/-!  Helper lemmas. -/

/-- Finding by name commutes with a name-preserving map of the band
list. -/
theorem find?_map_keepName (f : String × Band → String × Band)
    (hf : ∀ x, (f x).1 = x.1) (l : List (String × Band)) (n : String) :
    (l.map f).find? (fun nb => nb.1 == n) = (l.find? (fun nb => nb.1 == n)).map f := by
  induction l with
  | nil => rfl
  | cons a t ih =>
    rw [List.map_cons, List.find?_cons, List.find?_cons, hf a]
    cases h : (a.1 == n)
    · exact ih
    · rfl

/-- updateMask keeps the image properties. -/
theorem EEImage.updateMask_props (img m : EEImage) :
    (img.updateMask m).props = img.props := by
  unfold EEImage.updateMask
  cases hm : m.bands.head? <;> simp [EEImage.maskAllBands]

/-- copyProperties is invisible on the properties when the destination
already agrees with the source. -/
theorem EEImage.copyProperties_props_of_eq (x src : EEImage) (keys : List String)
    (h : x.props = src.props) : (x.copyProperties src keys).props = x.props := by
  funext s
  simp only [EEImage.copyProperties]
  split
  · cases hs : src.props s <;> simp [h, hs]
  · rfl

/-- Property lookup after set at the same key. -/
theorem EEImage.set_props_same (img : EEImage) (k : String) (v : ℚ) :
    (img.set k v).props k = some v := by
  simp [EEImage.set]

/-- set does not change the band list. -/
theorem EEImage.set_bands (img : EEImage) (k : String) (v : ℚ) :
    (img.set k v).bands = img.bands := rfl

/-!  Concrete inputs used by the witnesses. -/

/-- A band with a constant value, valid everywhere. -/
def constBand (v : ℚ) : Band := ⟨fun _ => v, fun _ => true⟩

/-- An image with no bands and no properties. -/
def emptyImage : EEImage := { bands := [], props := fun _ => none }

/-- A single-band NDVI image with a capture timestamp. -/
def mkNDVIImage (ts v : ℚ) : EEImage :=
  { bands := [("NDVI", constBand v)]
    props := fun s => if s = "system:time_start" then some ts else none }

/-- An NDVI image captured 1970-06-01 (day 151, 13046400000 ms). -/
def w70 : EEImage := mkNDVIImage 13046400000 (1/5)

/-- w70 after the time-band map of the yearly datasets. -/
def w70m : EEImage :=
  w70.addBands ((w70.metadata "system:time_start").divide 31540000000)

/-- Ambient state with analysis max, summer window, one June 1970
image. -/
def envMax : Env :=
  { aoi := fun _ => true
    waterMask := emptyImage
    index := "NDVI"
    index_collection := [w70]
    analysis := "max"
    start_year := 1970
    end_year := 1970
    start_month := 6
    end_month := 8 }

/-- envMax with a different region, water mask and index choice. -/
def envAlt : Env :=
  { envMax with
    aoi := fun _ => false
    waterMask := mkNDVIImage 0 0
    index := "EVI" }

/-- envMax with an unsupported analysis mode. -/
def envBad : Env := { envMax with analysis := "sum" }

/-- envMax with an empty image collection. -/
def envEmpty : Env := { envMax with index_collection := [] }

/-!  C1. -/

/-- C1: for every ambient analysis mode outside mean/median/min/max,
annual_images fails with the unbound-reducer configuration error instead
of defaulting to a reducer or producing a result. -/
theorem annual_images_invalid_mode_fails (env : Env) (y : ℤ)
    (h1 : env.analysis ≠ "mean") (h2 : env.analysis ≠ "min")
    (h3 : env.analysis ≠ "max") (h4 : env.analysis ≠ "median") :
    annual_images env y = Except.error PyError.unboundLocalReducer := by
  simp [annual_images, reducerFor, h1, h2, h3, h4]

/-- Witness for C1 at the concrete mode sum. -/
theorem annual_images_invalid_mode_fails_witness :
    annual_images envBad 1970 = Except.error PyError.unboundLocalReducer :=
  annual_images_invalid_mode_fails envBad 1970 (by decide) (by decide)
    (by decide) (by decide)

/-!  C2. -/

/-- C2: for every valid analysis mode and every year, annual_images
returns an image whose num property is the number of images of the
ambient collection passing the year and month calendar filters,
including zero. -/
theorem annual_images_num_counts_filtered (env : Env) (y : ℤ)
    (h : env.analysis = "mean" ∨ env.analysis = "median" ∨
      env.analysis = "min" ∨ env.analysis = "max") :
    ∃ s, annual_images env y = Except.ok s ∧
      s.props "num" = some
        ((((env.index_collection.filter (calendarRange y y "year")).filter
            (calendarRange env.start_month env.end_month "month")).length : ℚ)) := by
  have hlen : (annualImagesDataset env y).length
      = ((env.index_collection.filter (calendarRange y y "year")).filter
          (calendarRange env.start_month env.end_month "month")).length := by
    simp [annualImagesDataset]
  obtain ⟨r, hr⟩ : ∃ r, reducerFor env.analysis = some r := by
    rcases h with h | h | h | h <;> rw [h] <;> exact ⟨_, rfl⟩
  have hai : annual_images env y
      = Except.ok (((reduceCombined r (annualImagesDataset env y)).set "year"
          (y : ℚ)).set "num" ((annualImagesDataset env y).length : ℚ)) := by
    unfold annual_images
    rw [hr]
  exact ⟨_, hai, by simp [EEImage.set, hlen]⟩

/-- Witness for C2 at a concrete environment with one qualifying
image. -/
theorem annual_images_num_counts_filtered_witness :
    ∃ s, annual_images envMax 1970 = Except.ok s ∧
      s.props "num" = some
        ((((envMax.index_collection.filter (calendarRange 1970 1970 "year")).filter
            (calendarRange envMax.start_month envMax.end_month "month")).length : ℚ)) :=
  annual_images_num_counts_filtered envMax 1970 (Or.inr (Or.inr (Or.inr rfl)))

/-!  C3. -/

/-- C3: when the year/month window matches zero images (and the ambient
analysis mode is valid), annual_images returns a valid fully masked
image with num 0 instead of failing, and annual_trend likewise returns a
fully masked image with num 0, so a batch over a year range containing
empty years completes. -/
theorem empty_window_no_raise_zero_count (env : Env) (y : ℤ)
    (ha : env.analysis = "mean" ∨ env.analysis = "median" ∨
      env.analysis = "min" ∨ env.analysis = "max")
    (he : (env.index_collection.filter (calendarRange y y "year")).filter
        (calendarRange env.start_month env.end_month "month") = []) :
    (∃ s, annual_images env y = Except.ok s ∧ s.fullyMasked ∧
        s.props "num" = some 0) ∧
      (annual_trend env y).fullyMasked ∧ (annual_trend env y).props "num" = some 0 := by
  have hdsA : annualImagesDataset env y = [] := by
    rw [annualImagesDataset, he]; rfl
  have hdsT : annualTrendDataset env y = [] := by
    rw [annualTrendDataset, he]; rfl
  obtain ⟨r, hr⟩ : ∃ r, reducerFor env.analysis = some r := by
    rcases ha with h | h | h | h <;> rw [h] <;> exact ⟨_, rfl⟩
  have hai : annual_images env y
      = Except.ok (((reduceCombined r (annualImagesDataset env y)).set "year"
          (y : ℚ)).set "num" ((annualImagesDataset env y).length : ℚ)) := by
    unfold annual_images
    rw [hr]
  refine ⟨⟨_, hai, ?_, ?_⟩, ?_, ?_⟩
  · intro nb hnb p
    rw [EEImage.set_bands, EEImage.set_bands, hdsA] at hnb
    cases hnb
  · rw [hdsA]
    simp [EEImage.set]
  · intro nb hnb p
    unfold annual_trend at hnb
    rw [EEImage.set_bands, EEImage.set_bands, hdsT] at hnb
    cases hnb
  · unfold annual_trend
    rw [hdsT]
    simp [EEImage.set]

/-- Witness for C3 at a concrete empty collection. -/
theorem empty_window_no_raise_zero_count_witness :
    (∃ s, annual_images envEmpty 1970 = Except.ok s ∧ s.fullyMasked ∧
        s.props "num" = some 0) ∧
      (annual_trend envEmpty 1970).fullyMasked ∧
      (annual_trend envEmpty 1970).props "num" = some 0 :=
  empty_window_no_raise_zero_count envEmpty 1970 (Or.inr (Or.inr (Or.inr rfl))) rfl

/-!  C4. -/

/-- C4: annual_images, intrayear and annual_trend are stateless
transforms over their declared inputs: two environments agreeing on the
index collection, month window and analysis mode (and, for intrayear,
the ambient year bounds) produce identical results for every year
argument and collection argument, regardless of any other ambient
notebook state; each call recomputes from the current parameters. -/
theorem stage_functions_stateless (e1 e2 : Env)
    (hic : e1.index_collection = e2.index_collection)
    (hsm : e1.start_month = e2.start_month)
    (hem : e1.end_month = e2.end_month)
    (han : e1.analysis = e2.analysis) :
    (∀ y, annual_images e1 y = annual_images e2 y) ∧
      (∀ y, annual_trend e1 y = annual_trend e2 y) ∧
      (e1.start_year = e2.start_year → e1.end_year = e2.end_year →
        ∀ ic, intrayear e1 ic = intrayear e2 ic) := by
  refine ⟨fun y => ?_, fun y => ?_, fun hsy hey ic => ?_⟩
  · simp only [annual_images, annualImagesDataset, hic, hsm, hem, han]
  · simp only [annual_trend, annualTrendDataset, hic, hsm, hem]
  · simp only [intrayear, intrayearDataset, hsm, hem, hsy, hey]

/-- Witness for C4: the two concrete environments differ in region of
interest, water mask and index choice, yet every stage result
coincides. -/
theorem stage_functions_stateless_witness :
    (∀ y, annual_images envMax y = annual_images envAlt y) ∧
      (∀ y, annual_trend envMax y = annual_trend envAlt y) ∧
      (envMax.start_year = envAlt.start_year → envMax.end_year = envAlt.end_year →
        ∀ ic, intrayear envMax ic = intrayear envAlt ic) :=
  stage_functions_stateless envMax envAlt rfl rfl rfl rfl

/-!  C6. -/

/-- C6: every masking step preserves the capture timestamp: for any
input image carrying system:time_start, the outputs of maskS2clouds,
maskWater, maskS2snow and maskWhite carry the same value. -/
theorem masks_preserve_time_start (env : Env) (image : EEImage) (ts : ℚ)
    (h : image.props "system:time_start" = some ts) :
    (maskS2clouds image).props "system:time_start" = some ts ∧
      (maskWater env image).props "system:time_start" = some ts ∧
      (maskS2snow image).props "system:time_start" = some ts ∧
      (maskWhite image).props "system:time_start" = some ts := by
  refine ⟨?_, ?_, ?_, ?_⟩
  · simp [maskS2clouds, EEImage.copyProperties, h]
  · rw [maskWater, EEImage.updateMask_props]
    exact h
  · rw [maskS2snow]
    simp [EEImage.copyProperties, h]
  · rw [maskWhite]
    simp [EEImage.copyProperties, h]

/-- Witness for C6 at a concrete timestamped image. -/
theorem masks_preserve_time_start_witness :
    (maskS2clouds w70).props "system:time_start" = some 13046400000 ∧
      (maskWater envMax w70).props "system:time_start" = some 13046400000 ∧
      (maskS2snow w70).props "system:time_start" = some 13046400000 ∧
      (maskWhite w70).props "system:time_start" = some 13046400000 :=
  masks_preserve_time_start envMax w70 13046400000 rfl

/-!  C7. -/

/-- C7: before any linear fit, each of the three trend paths adds a time
band equal to system:time_start divided by the same fixed constant
3.154e10 = 31540000000: every image of the filtered datasets of
annual_images, annual_trend and intrayear ends with a system:time_start
band holding the timestamp divided by that shared constant, and
intrayear passes exactly this dataset on. -/
theorem time_band_normalization_constant (env : Env) (y : ℤ) (ic : List EEImage) :
    (∀ img ∈ annualImagesDataset env y, ∀ ts,
        img.props "system:time_start" = some ts →
        ∃ b, img.bands.getLast? = some ("system:time_start", b) ∧
          ∀ p, b.mask p = true ∧ b.value p = ts / 31540000000) ∧
      (∀ img ∈ annualTrendDataset env y, ∀ ts,
        img.props "system:time_start" = some ts →
        ∃ b, img.bands.getLast? = some ("system:time_start", b) ∧
          ∀ p, b.mask p = true ∧ b.value p = ts / 31540000000) ∧
      (∀ img ∈ intrayearDataset env ic, ∀ ts,
        img.props "system:time_start" = some ts →
        ∃ b, img.bands.getLast? = some ("system:time_start", b) ∧
          ∀ p, b.mask p = true ∧ b.value p = ts / 31540000000) ∧
      (intrayear env ic).images = intrayearDataset env ic := by
  have key : ∀ (l : List EEImage) (img : EEImage),
      img ∈ l.map (fun image =>
        image.addBands ((image.metadata "system:time_start").divide 31540000000)) →
      ∀ ts, img.props "system:time_start" = some ts →
      ∃ b, img.bands.getLast? = some ("system:time_start", b) ∧
        ∀ p, b.mask p = true ∧ b.value p = ts / 31540000000 := by
    intro l img hmem ts hts
    obtain ⟨src, _, rfl⟩ := List.mem_map.mp hmem
    have hsrc : src.props "system:time_start" = some ts := hts
    refine ⟨⟨fun _ => (src.props "system:time_start").getD 0 / 31540000000,
        fun _ => (src.props "system:time_start").isSome⟩, ?_, fun p => ⟨?_, ?_⟩⟩
    · show (src.bands ++ _).getLast? = _
      exact List.getLast?_concat _
    · show (src.props "system:time_start").isSome = true
      rw [hsrc]
      rfl
    · show (src.props "system:time_start").getD 0 / 31540000000 = ts / 31540000000
      rw [hsrc]
      rfl
  exact ⟨key _, key _, key _, rfl⟩

/-- Witness for C7: the June 1970 image passes the filters and receives
the normalized time band. -/
theorem time_band_normalization_constant_witness :
    ∃ b, w70m.bands.getLast? = some ("system:time_start", b) ∧
      ∀ p, b.mask p = true ∧ b.value p = (13046400000 : ℚ) / 31540000000 :=
  (time_band_normalization_constant envMax 1970 []).1 w70m
    (by rw [show annualImagesDataset envMax 1970 = [w70m] from rfl]
        exact List.mem_singleton.mpr rfl)
    13046400000 rfl

/-!  Masking algebra. -/

/-- updateMask with a bandless mask image is the identity. -/
theorem EEImage.updateMask_of_none (img M : EEImage)
    (h : M.bands.head? = none) : img.updateMask M = img := by
  unfold EEImage.updateMask
  rw [h]

/-- updateMask through the first band of the mask image. -/
theorem EEImage.updateMask_of_head (img M : EEImage) (mb : String × Band)
    (h : M.bands.head? = some mb) :
    img.updateMask M
      = img.maskAllBands (fun p => mb.2.mask p && decide (mb.2.value p ≠ 0)) := by
  unfold EEImage.updateMask
  rw [h]

/-- copyProperties is the identity when the destination properties
already agree with the source. -/
theorem copyProperties_cancel (x src : EEImage) (keys : List String)
    (h : x.props = src.props) : x.copyProperties src keys = x :=
  EEImage.ext rfl (EEImage.copyProperties_props_of_eq x src keys h)

/-- Band lookup through maskAllBands: values are kept and the mask
gains the extra test (the absent case stays fully masked). -/
theorem EEImage.findBandD_maskAllBands (img : EEImage) (t : Pix → Bool) (n : String) :
    (img.maskAllBands t).findBandD n
      = ⟨(img.findBandD n).value, fun p => (img.findBandD n).mask p && t p⟩ := by
  have hb : (img.maskAllBands t).bands
      = img.bands.map (fun nb => (nb.1, ⟨nb.2.value, fun p => nb.2.mask p && t p⟩)) := rfl
  unfold EEImage.findBandD EEImage.findBand?
  rw [hb, find?_map_keepName
    (fun nb => (nb.1, ⟨nb.2.value, fun p => nb.2.mask p && t p⟩)) (fun x => rfl)]
  cases h : img.bands.find? (fun nb => nb.1 == n)
  · refine Band.ext rfl ?_
    funext p
    show false = (false && t p)
    exact (Bool.false_and _).symm
  · rfl

/-- Masking twice is masking once when the second test passes wherever
the first does. -/
theorem maskAllBands_absorb (img : EEImage) (t1 t2 : Pix → Bool)
    (h : ∀ p, t1 p = true → t2 p = true) :
    (img.maskAllBands t1).maskAllBands t2 = img.maskAllBands t1 := by
  refine EEImage.ext ?_ rfl
  show (img.bands.map _).map _ = img.bands.map _
  rw [List.map_map]
  refine List.map_congr_left ?_
  intro nb _
  refine congrArg (Prod.mk nb.1) (Band.ext rfl ?_)
  funext p
  cases ht : t1 p
  · simp [ht]
  · simp [ht, h p ht]

/-- An indicator band value tests exactly its condition. -/
theorem decide_indicator_eq (c : Prop) [Decidable c] :
    decide ((if c then (1 : ℚ) else 0) ≠ 0) = decide c := by
  by_cases h : c <;> simp [h]

/-- Normal form of maskS2snow when the snow-probability band is
absent: everything reduces to the identity. -/
theorem maskS2snow_eq_none (img : EEImage)
    (hf : img.bands.find? (fun nb => nb.1 == "MSK_SNWPRB") = none) :
    maskS2snow img = img := by
  have hM : ((img.select "MSK_SNWPRB").ltConst (9 / 1000)).bands.head? = none := by
    simp [EEImage.select, EEImage.ltConst, EEImage.mapVals, hf]
  simp only [maskS2snow]
  rw [EEImage.updateMask_of_none _ _ hM]
  exact copyProperties_cancel _ _ _ rfl

/-- Normal form of maskS2snow when the snow-probability band is
present: one maskAllBands pass with the snow test. -/
theorem maskS2snow_eq_some (img : EEImage) (e : String × Band)
    (hf : img.bands.find? (fun nb => nb.1 == "MSK_SNWPRB") = some e) :
    maskS2snow img = img.maskAllBands (fun p =>
      e.2.mask p && decide ((if e.2.value p < 9 / 1000 then (1 : ℚ) else 0) ≠ 0)) := by
  have hM : ((img.select "MSK_SNWPRB").ltConst (9 / 1000)).bands.head?
      = some (e.1, ⟨fun p => if e.2.value p < 9 / 1000 then (1 : ℚ) else 0, e.2.mask⟩) := by
    simp [EEImage.select, EEImage.ltConst, EEImage.mapVals, hf]
  simp only [maskS2snow]
  rw [EEImage.updateMask_of_head _ _ _ hM]
  exact copyProperties_cancel _ _ _ rfl

/-- Normal form of maskWhite: one maskAllBands pass with the grayscale
test. -/
theorem maskWhite_eq (img : EEImage) :
    maskWhite img = img.maskAllBands (fun p =>
      ((img.findBandD "B4").mask p && (img.findBandD "B3").mask p
          && (img.findBandD "B2").mask p)
        && decide ((if (3/10 : ℚ) * 10000 * (img.findBandD "B4").value p
            + (59/100) * 10000 * (img.findBandD "B3").value p
            + (11/100) * 10000 * (img.findBandD "B2").value p ≤ 2000
            then (1 : ℚ) else 0) ≠ 0)) := by
  simp only [maskWhite]
  rw [EEImage.updateMask_of_head img ((grayscaleExpr img).lteConst 2000)
    ("constant", ⟨fun p => if (3/10 : ℚ) * 10000 * (img.findBandD "B4").value p
        + (59/100) * 10000 * (img.findBandD "B3").value p
        + (11/100) * 10000 * (img.findBandD "B2").value p ≤ 2000
        then (1 : ℚ) else 0,
      fun p => (img.findBandD "B4").mask p && (img.findBandD "B3").mask p
        && (img.findBandD "B2").mask p⟩) rfl]
  exact copyProperties_cancel _ _ _ rfl

/-- C5 amended: the snow, white and water masking steps are idempotent
(the cloud/cirrus step is not: it rescales the pixel values by 1/10000
on every application, as the counterexample shows). -/
theorem non_cloud_masking_steps_idempotent (env : Env) (image : EEImage) :
    maskWater env (maskWater env image) = maskWater env image ∧
      maskS2snow (maskS2snow image) = maskS2snow image ∧
      maskWhite (maskWhite image) = maskWhite image := by
  refine ⟨?_, ?_, ?_⟩
  · unfold maskWater
    cases hM : ((env.waterMask.select "water_mask").ltConst 1).bands.head? with
    | none => rw [EEImage.updateMask_of_none _ _ hM, EEImage.updateMask_of_none _ _ hM]
    | some mb =>
      rw [EEImage.updateMask_of_head _ _ _ hM, EEImage.updateMask_of_head _ _ _ hM]
      exact maskAllBands_absorb _ _ _ (fun p hp => hp)
  · cases hf : image.bands.find? (fun nb => nb.1 == "MSK_SNWPRB") with
    | none =>
      rw [maskS2snow_eq_none image hf]
      exact maskS2snow_eq_none image hf
    | some e =>
      rw [maskS2snow_eq_some image e hf]
      have hf2 : ((image.maskAllBands (fun p =>
          e.2.mask p && decide ((if e.2.value p < 9 / 1000 then (1 : ℚ) else 0) ≠ 0))).bands.find?
            (fun nb => nb.1 == "MSK_SNWPRB"))
          = some (e.1, ⟨e.2.value, fun p => e.2.mask p
              && (e.2.mask p && decide ((if e.2.value p < 9 / 1000 then (1 : ℚ) else 0) ≠ 0))⟩) := by
        show (image.bands.map _).find? _ = _
        rw [find?_map_keepName
          (fun nb => (nb.1, ⟨nb.2.value, fun p => nb.2.mask p
            && (e.2.mask p && decide ((if e.2.value p < 9 / 1000 then (1 : ℚ) else 0) ≠ 0))⟩))
          (fun x => rfl), hf]
        rfl
      rw [maskS2snow_eq_some _ _ hf2]
      refine maskAllBands_absorb _ _ _ ?_
      intro p hp
      simp only [decide_indicator_eq] at hp ⊢
      simp only [Bool.and_eq_true] at hp
      obtain ⟨hm, hd⟩ := hp
      simp [hm, hd]
  · rw [maskWhite_eq image]
    rw [maskWhite_eq (image.maskAllBands _)]
    refine maskAllBands_absorb _ _ _ ?_
    intro p hp
    simp only [EEImage.findBandD_maskAllBands]
    simp only [decide_indicator_eq] at hp ⊢
    simp only [Bool.and_eq_true] at hp
    obtain ⟨⟨⟨hr, hg⟩, hb⟩, hd⟩ := hp
    simp [hr, hg, hb, hd]

/-- A cloud-free image: clear QA60 flags and a bright B4 band. -/
def cexCloud : EEImage :=
  { bands := [("QA60", constBand 0), ("B4", constBand 2000)]
    props := fun s => if s = "system:time_start" then some 13046400000 else none }

/-- C5 counterexample: the cloud/cirrus masking step is not idempotent.
On a clear image with B4 value 2000 a first application leaves B4 at
1/5 and a second application divides again, leaving 1/50000, so the two
results differ. -/
theorem maskS2clouds_not_idempotent :
    maskS2clouds (maskS2clouds cexCloud) ≠ maskS2clouds cexCloud := by
  intro h
  exact absurd (congrArg (fun im => (EEImage.findBandD im "B4").value 0) h)
    (by with_unfolding_all decide)

/-!  C10. -/

/-- Band lookup through mapVals: values are transformed, masks kept. -/
theorem EEImage.findBand?_mapVals (img : EEImage) (f : ℚ → ℚ) (n : String) :
    (img.mapVals f).findBand? n
      = (img.findBand? n).map (fun b => ⟨fun p => f (b.value p), b.mask⟩) := by
  have hb : (img.mapVals f).bands
      = img.bands.map (fun nb => (nb.1, ⟨fun p => f (nb.2.value p), nb.2.mask⟩)) := rfl
  unfold EEImage.findBand?
  rw [hb, find?_map_keepName
    (fun nb => (nb.1, ⟨fun p => f (nb.2.value p), nb.2.mask⟩)) (fun x => rfl)]
  cases img.bands.find? (fun nb => nb.1 == n) <;> rfl

/-- Band lookup through maskAllBands, option form. -/
theorem EEImage.findBand?_maskAllBands (img : EEImage) (t : Pix → Bool) (n : String) :
    (img.maskAllBands t).findBand? n
      = (img.findBand? n).map (fun b => ⟨b.value, fun p => b.mask p && t p⟩) := by
  have hb : (img.maskAllBands t).bands
      = img.bands.map (fun nb => (nb.1, ⟨nb.2.value, fun p => nb.2.mask p && t p⟩)) := rfl
  unfold EEImage.findBand?
  rw [hb, find?_map_keepName
    (fun nb => (nb.1, ⟨nb.2.value, fun p => nb.2.mask p && t p⟩)) (fun x => rfl)]
  cases img.bands.find? (fun nb => nb.1 == n) <;> rfl

/-- copyProperties does not touch the bands. -/
theorem EEImage.findBand?_copyProperties (x src : EEImage) (keys : List String)
    (n : String) : (x.copyProperties src keys).findBand? n = x.findBand? n := rfl

/-- Band lookup through divide. -/
theorem EEImage.findBand?_divide (img : EEImage) (c : ℚ) (n : String) :
    (img.divide c).findBand? n
      = (img.findBand? n).map (fun b => ⟨fun p => b.value p / c, b.mask⟩) :=
  EEImage.findBand?_mapVals img (fun v => v / c) n

/-- C10: maskS2clouds rescales in addition to masking: at every pixel
where the QA60 band is valid with cloud and cirrus bits clear, every
band of the output holds the input value divided by 10000 under an
unchanged mask, so the cloud-masking step is not value-preserving. -/
theorem maskS2clouds_divides_by_10000 (image : EEImage) (n : String) (p : Pix)
    (hq : (image.findBandD "QA60").mask p = true)
    (h1 : Int.land ((image.findBandD "QA60").value p).floor 1024 = 0)
    (h2 : Int.land ((image.findBandD "QA60").value p).floor 2048 = 0) :
    ((maskS2clouds image).findBandD n).value p
        = (image.findBandD n).value p / 10000 ∧
      ((maskS2clouds image).findBandD n).mask p = (image.findBandD n).mask p := by
  obtain ⟨eq, hfq⟩ : ∃ e, image.bands.find? (fun nb => nb.1 == "QA60") = some e := by
    cases hfq : image.bands.find? (fun nb => nb.1 == "QA60") with
    | none =>
      rw [EEImage.findBandD, EEImage.findBand?, hfq] at hq
      exact absurd hq (by simp [defaultBand])
    | some e => exact ⟨e, rfl⟩
  have hfbd : image.findBandD "QA60" = eq.2 := by
    rw [EEImage.findBandD, EEImage.findBand?, hfq]
    rfl
  rw [hfbd] at hq h1 h2
  set X := ((image.select "QA60").bitwiseAnd (1 <<< 10)).eqConst 0 with hX
  set Y := ((image.select "QA60").bitwiseAnd (1 <<< 11)).eqConst 0 with hY
  have hXfb : X.firstBand
      = ⟨fun q => if ((Int.land (eq.2.value q).floor 1024 : ℤ) : ℚ) = 0 then 1 else 0,
          eq.2.mask⟩ := by
    rw [hX]
    simp [EEImage.firstBand, EEImage.eqConst, EEImage.bitwiseAnd, EEImage.mapVals,
      EEImage.select, hfq]
  have hYfb : Y.firstBand
      = ⟨fun q => if ((Int.land (eq.2.value q).floor 2048 : ℤ) : ℚ) = 0 then 1 else 0,
          eq.2.mask⟩ := by
    rw [hY]
    simp [EEImage.firstBand, EEImage.eqConst, EEImage.bitwiseAnd, EEImage.mapVals,
      EEImage.select, hfq]
  have hmask : maskS2clouds image
      = ((image.maskAllBands (fun q => (X.firstBand.mask q && Y.firstBand.mask q)
          && decide ((if X.firstBand.value q ≠ 0 ∧ Y.firstBand.value q ≠ 0
              then (1 : ℚ) else 0) ≠ 0))).divide 10000).copyProperties
          image ["system:time_start"] := rfl
  have ht : ((X.firstBand.mask p && Y.firstBand.mask p)
      && decide ((if X.firstBand.value p ≠ 0 ∧ Y.firstBand.value p ≠ 0
          then (1 : ℚ) else 0) ≠ 0)) = true := by
    rw [hXfb, hYfb]
    simp [hq, h1, h2]
  cases hfn : image.bands.find? (fun nb => nb.1 == n) with
  | none =>
    have hfb : image.findBand? n = none := by
      rw [EEImage.findBand?, hfn]
      rfl
    have hL : (maskS2clouds image).findBandD n = defaultBand := by
      rw [hmask, EEImage.findBandD, EEImage.findBand?_copyProperties,
        EEImage.findBand?_divide, EEImage.findBand?_maskAllBands, hfb]
      rfl
    have hRD : image.findBandD n = defaultBand := by
      rw [EEImage.findBandD, hfb]
      rfl
    rw [hL, hRD]
    refine ⟨?_, rfl⟩
    show (0 : ℚ) = 0 / 10000
    rw [zero_div]
  | some en =>
    have hfb : image.findBand? n = some en.2 := by
      rw [EEImage.findBand?, hfn]
      rfl
    have hL : (maskS2clouds image).findBandD n
        = ⟨fun q => en.2.value q / 10000,
            fun q => en.2.mask q && ((X.firstBand.mask q && Y.firstBand.mask q)
              && decide ((if X.firstBand.value q ≠ 0 ∧ Y.firstBand.value q ≠ 0
                  then (1 : ℚ) else 0) ≠ 0))⟩ := by
      rw [hmask, EEImage.findBandD, EEImage.findBand?_copyProperties,
        EEImage.findBand?_divide, EEImage.findBand?_maskAllBands, hfb]
      rfl
    have hRD : image.findBandD n = en.2 := by
      rw [EEImage.findBandD, hfb]
      rfl
    rw [hL, hRD]
    refine ⟨rfl, ?_⟩
    dsimp only
    rw [ht, Bool.and_true]

/-- Witness for C10 at a concrete clear-sky image: B4 drops from 2000
to 1/5. -/
theorem maskS2clouds_divides_by_10000_witness :
    ((maskS2clouds cexCloud).findBandD "B4").value 0
        = (cexCloud.findBandD "B4").value 0 / 10000 ∧
      ((maskS2clouds cexCloud).findBandD "B4").mask 0
        = (cexCloud.findBandD "B4").mask 0 :=
  maskS2clouds_divides_by_10000 cexCloud "B4" 0 (by with_unfolding_all decide)
    (by with_unfolding_all decide) (by with_unfolding_all decide)

/-!  C8. -/

/-- Five summer 1970 snapshots whose NDVI rises by exactly 0.1 per
normalized year (216/39425 per 20-day step after division by
3.154e10). -/
def env8 : Env :=
  { aoi := fun _ => true
    waterMask := emptyImage
    index := "NDVI"
    index_collection :=
      [mkNDVIImage 13046400000 (1/5),
       mkNDVIImage 14774400000 (1/5 + 216/39425),
       mkNDVIImage 16502400000 (1/5 + 432/39425),
       mkNDVIImage 18230400000 (1/5 + 648/39425),
       mkNDVIImage 19958400000 (1/5 + 864/39425)]
    analysis := "max"
    start_year := 1970
    end_year := 1974
    start_month := 6
    end_month := 8 }

/-- C8 evaluation at the failing input: on an index series rising 0.1
per normalized year, annual_trend reports a scale of 10, because its
filtered dataset feeds the bands to the linear-fit reducer in the order
index first and time second, regressing time on the index; swapping the
pair back to time-first recovers the slope 1/10 that the specification
expects. -/
theorem annual_trend_swapped_inputs_eval :
    ((annual_trend env8 1970).findBandD "scale").value 0 = 10 ∧
      fitScale ((linearPairs (annualTrendDataset env8 1970) 0).map
        (fun q => (q.2, q.1))) = some (1/10) := by
  constructor
  · with_unfolding_all decide
  · with_unfolding_all decide

/-!  C9. -/

/-- The scan of argminAux never leaves the index range. -/
theorem argminAux_lt (vs : List ℚ) : ∀ (i bi : Nat) (bv : ℚ), bi < i →
    argminAux vs i bi bv < i + vs.length := by
  induction vs with
  | nil =>
    intro i bi bv h
    simpa [argminAux] using h
  | cons v t ih =>
    intro i bi bv h
    rw [argminAux]
    by_cases hv : v < bv
    · rw [if_pos hv]
      have := ih (i + 1) i v (Nat.lt_succ_self i)
      simp only [List.length_cons]
      omega
    · rw [if_neg hv]
      have := ih (i + 1) bi bv (Nat.lt_succ_of_lt h)
      simp only [List.length_cons]
      omega

/-- The index of the least element is a valid index. -/
theorem argminIdx_lt (l : List ℚ) (h : l ≠ []) : argminIdx l < l.length := by
  cases l with
  | nil => exact absurd rfl h
  | cons v vs =>
    rw [argminIdx]
    have := argminAux_lt vs 1 0 v Nat.one_pos
    simpa [Nat.add_comm] using this

/-- C9: the clusterer is trained on a bounded sample of at most 5000
pixels, and with 4 requested clusters every pixel label of kmeansresult
is an integer in 0, 1, 2, 3. -/
theorem kmeans_labels_in_range (img : EEImage) (aoi : Pix → Bool) (p : Pix) :
    (training img aoi).length ≤ 5000 ∧
      ∃ m : Nat, m < 4 ∧
        ((kmeansresult img aoi).findBandD "cluster").value p = (m : ℚ) := by
  constructor
  · rw [training, EEImage.sample]
    rw [List.length_take]
    exact min_le_left _ _
  · have hk : (kmeans img aoi).length = 4 := by
      rw [kmeans, wekaKMeansTrain]
      simp only [List.length_append, List.length_replicate, List.length_take]
      omega
    refine ⟨argminIdx ((kmeans img aoi).map
      (fun c => dist2 c (img.bands.map (fun nb => nb.2.value p)))), ?_, ?_⟩
    · have hne : ((kmeans img aoi).map
          (fun c => dist2 c (img.bands.map (fun nb => nb.2.value p)))) ≠ [] := by
        intro hcon
        have := congrArg List.length hcon
        rw [List.length_map, hk] at this
        exact absurd this (by decide)
      have := argminIdx_lt _ hne
      rwa [List.length_map, hk] at this
    · rfl
